import Mathlib

/-!
Shallow embedding of the two command-line utilities of this repository:

* `generate_changelog.py` — renders git commit history as a Markdown list;
* `build_research_report.py` — renders a JSON list of source citations as a
  Markdown research-report scaffold.

Python optional strings (`Optional[str]`) become `Option String`; Python
truthiness of such a value (`if s:`) is `pyTruthy`.  The external `git`
subprocess becomes an oracle `git : List String → GitResult` mapping a
command line to its outcome; each command is invoked at most once per run,
so a deterministic oracle is faithful.  File and stdout writes become
explicit effect values returned by the embedded `main` functions.
-/

/-- Truthiness of a Python `Optional[str]`: `None` and `""` are falsy. -/
def pyTruthy : Option String → Bool
  | none => false
  | some s => !s.isEmpty

/-- The ASCII whitespace characters `str.strip()` removes (space, tab,
newline, carriage return, vertical tab, form feed). -/
def isPySpace (c : Char) : Bool :=
  c = ' ' || c = '\t' || c = '\n' || c = '\r' || c = '\x0b' || c = '\x0c'

/-- Python `str.strip()`: drop leading and trailing whitespace. -/
def pyStrip (s : String) : String :=
  String.mk (((s.data.dropWhile isPySpace).reverse.dropWhile isPySpace).reverse)

/-- Splitting a character list at newline characters, dropping the empty
segment a trailing newline would produce, as `str.splitlines` does. -/
def splitLinesAux : List Char → List Char → List String
  | [], acc => [String.mk acc.reverse]
  | '\n' :: [], acc => [String.mk acc.reverse]
  | '\n' :: rest, acc => String.mk acc.reverse :: splitLinesAux rest []
  | c :: rest, acc => splitLinesAux rest (c :: acc)

/-- Python `str.splitlines` restricted to newline-separated text (the only
separators occurring in the data both scripts handle); `"".splitlines() = []`. -/
def pySplitlines (s : String) : List String :=
  if s.isEmpty then [] else splitLinesAux s.data []

/-! ## generate_changelog.py -/

/-- Outcome of one external `git` invocation: captured stdout on success, or a
`CalledProcessError` carrying the captured stderr text (with
`stderr=subprocess.PIPE, text=True` the attribute is always a string). -/
inductive GitResult where
  | ok (stdout : String)
  | err (stderr : String)
  deriving DecidableEq, Repr

/-- `run_git` (generate_changelog.py lines 23–31): run `git` with `check=True`
and return the stripped stdout; a failing command surfaces as the error case. -/
def run_git (git : List String → GitResult) (args : List String) :
    Except String String :=
  match git args with
  | .ok stdout => .ok (pyStrip stdout)
  | .err stderr => .error stderr

/-- `get_last_tag` (lines 34–39): latest tag via `git describe`, `none` when the
command fails or prints nothing. -/
def get_last_tag (git : List String → GitResult) : Option String :=
  match run_git git ["describe", "--tags", "--abbrev=0"] with
  | .ok tag => if tag.isEmpty then none else some tag
  | .error _ => none

/-- `build_range` (lines 42–49). -/
def build_range (since_ref until_ref : Option String) : Option String :=
  if pyTruthy since_ref && pyTruthy until_ref then
    some (since_ref.getD "" ++ ".." ++ until_ref.getD "")
  else if pyTruthy since_ref then
    some (since_ref.getD "" ++ "..HEAD")
  else if pyTruthy until_ref then
    some (until_ref.getD "")
  else
    none

/-- `build_log_args` (lines 52–67). -/
def build_log_args (git_range : Option String) (since_date : Option String)
    (max_count : Int) (include_merges : Bool) : List String :=
  let args := ["log"]
  let args := args ++ (if pyTruthy git_range then [git_range.getD ""] else [])
  let args := args ++ (if include_merges then [] else ["--no-merges"])
  let args := args ++ ["--max-count=" ++ toString max_count]
  let args := args ++ (match since_date, pyTruthy since_date with
    | some d, true => ["--since", d]
    | _, _ => [])
  args ++ ["--pretty=format:%h %s"]

/-- `format_markdown` (lines 70–76). -/
def format_markdown (title : String) (commits : List String) : String :=
  let lines := [title, ""]
  if commits.isEmpty then
    String.intercalate "\n" (lines ++ ["- (No commits found)"])
  else
    String.intercalate "\n" (lines ++ commits.map (fun c => "- " ++ c))

/-- Parsed command-line arguments of `generate_changelog.py` (lines 80–87);
`max` defaults to 50 and the flags default to absent at the argparse level. -/
structure ChangelogArgs where
  since_ref : Option String
  until_ref : Option String
  since_date : Option String
  max : Int
  include_merges : Bool
  output : Option String
  deriving DecidableEq, Repr

/-- Where a successful run put the rendered Markdown (line 115–119): the
`--output` file receives `markdown ++ "\n"`, otherwise `print` receives
`markdown` (and the terminal appends the final newline). -/
inductive OutTarget where
  | file (path : String) (content : String)
  | stdout (content : String)
  deriving DecidableEq, Repr

/-- Result of `main` of generate_changelog.py: exit 0 with an output effect, or
exit 1 with a message written to stderr and no output produced. -/
inductive ChangelogOutcome where
  | success (out : OutTarget)
  | failure (stderrMsg : String)
  deriving DecidableEq, Repr

/-- The process exit code of a run (lines 100 and 121). -/
def ChangelogOutcome.exitCode : ChangelogOutcome → Nat
  | .success _ => 0
  | .failure _ => 1

/-- Whether the run produced any changelog output (file or stdout). -/
def ChangelogOutcome.writesOutput : ChangelogOutcome → Bool
  | .success _ => true
  | .failure _ => false

/-- Fallback stderr message of line 99. -/
def fallbackGitLogMsg : String := "Failed to run git log.\n"

/-- The effective `since_ref` of `main` (lines 89–91): the `--since-ref`
argument, replaced by the last tag when both it and `--since-date` are falsy. -/
def effective_since_ref (a : ChangelogArgs) (git : List String → GitResult) :
    Option String :=
  if !pyTruthy a.since_ref && !pyTruthy a.since_date then get_last_tag git
  else a.since_ref

/-- The argument list `main` passes to `git log` (lines 93–94). -/
def main_log_args (a : ChangelogArgs) (git : List String → GitResult) :
    List String :=
  build_log_args (build_range (effective_since_ref a git) a.until_ref)
    a.since_date a.max a.include_merges

/-- The commit list of line 102: strip every line of the git output and keep
the non-blank ones, in order. -/
def parse_commits (output : String) : List String :=
  (pySplitlines output).filterMap fun line =>
    let t := pyStrip line
    if t.isEmpty then none else some t

/-- The changelog title of lines 104–111. -/
def main_title (a : ChangelogArgs) (git : List String → GitResult) : String :=
  let since_ref := effective_since_ref a git
  let parts := ["## Changelog"]
  let parts := parts ++
    (if pyTruthy since_ref then ["(since " ++ since_ref.getD "" ++ ")"] else [])
  let parts := parts ++
    (if pyTruthy a.since_date then ["(since " ++ a.since_date.getD "" ++ ")"]
     else [])
  let parts := parts ++
    (if pyTruthy a.until_ref then ["(until " ++ a.until_ref.getD "" ++ ")"]
     else [])
  String.intercalate " " parts

/-- `main` of generate_changelog.py (lines 79–121) after argument parsing. -/
def changelog_main (a : ChangelogArgs) (git : List String → GitResult) :
    ChangelogOutcome :=
  match run_git git (main_log_args a git) with
  | .error stderr =>
      .failure (if stderr.isEmpty then fallbackGitLogMsg else stderr)
  | .ok output =>
      let markdown := format_markdown (main_title a git) (parse_commits output)
      match a.output with
      | some path => .success (.file path (markdown ++ "\n"))
      | none => .success (.stdout markdown)

/-! ## build_research_report.py -/

/-- A parsed JSON value.  Source objects are string-valued dictionaries, as the
script's documented input format and the `List[Dict[str, str]]` annotations
declare; a dictionary is an association list looked up by key. -/
inductive Json where
  | null
  | bool (b : Bool)
  | num (n : Int)
  | str (s : String)
  | arr (elems : List Json)
  | obj (fields : List (String × String))

/-- A source object: a string-valued dictionary. -/
abbrev SourceDict := List (String × String)

/-- Python `dict.get(key, default)` on a string-valued dictionary. -/
def dictGet (item : SourceDict) (key dflt : String) : String :=
  (item.lookup key).getD dflt

/-- `load_sources` (build_research_report.py lines 21–26) after the file read
and JSON parse: return the parsed value when it is a list, otherwise raise
`ValueError`. -/
def load_sources (data : Json) : Except String Json :=
  match data with
  | .arr _ => .ok data
  | _ => .error "Input JSON must be a list of source objects"

/-- The loop body of `format_sources` (lines 33–49): render one source object. -/
def format_source_entry (item : SourceDict) : String :=
  let title := dictGet item "title" "(untitled)"
  let url := dictGet item "url" ""
  let date := dictGet item "date" ""
  let notes := dictGet item "notes" ""
  let source_type := dictGet item "type" ""
  let parts := [title]
  let parts := parts ++ (if date.isEmpty then [] else ["[" ++ date ++ "]"])
  let parts := parts ++
    (if source_type.isEmpty then [] else ["(" ++ source_type ++ ")"])
  let line := "- " ++ String.intercalate " " parts
  let line := if url.isEmpty then line else line ++ "\n  - URL: " ++ url
  let line := if notes.isEmpty then line else line ++ "\n  - Notes: " ++ notes
  line

/-- `format_sources` (lines 29–50). -/
def format_sources (sources : List SourceDict) : String :=
  if sources.isEmpty then "- (No sources provided)"
  else String.intercalate "\n" (sources.map format_source_entry)

/-- `build_report` (lines 53–70). -/
def build_report (topic : String) (sources : List SourceDict) : String :=
  String.intercalate "\n" [
    "# Research Report: " ++ topic,
    "",
    "## Summary",
    "- ...",
    "- ...",
    "",
    "## Key facts (with dates)",
    "- ...",
    "",
    "## Contradictions / uncertainties",
    "- ...",
    "",
    "## Sources",
    format_sources sources,
    ""
  ]

/-- The output effect of a successful report run (lines 83–87): the exact
string handed to `handle.write` or to `print`. -/
inductive ReportEffect where
  | writeFile (path : String) (content : String)
  | printStdout (content : String)
  deriving DecidableEq, Repr

/-- The dictionary carried by a JSON source object.  The script's documented
input fixes array elements to be objects; on any other element Python would
fault inside `format_sources`, outside every behaviour specified here. -/
def Json.asDict : Json → SourceDict
  | .obj fields => fields
  | _ => []

/-- `main` of build_research_report.py (lines 73–88) after argument parsing,
with the input file already read and parsed to a JSON value. -/
def report_main (topic : String) (data : Json) (output : Option String) :
    Except String ReportEffect :=
  match load_sources data with
  | .error e => .error e
  | .ok v =>
      let sources := match v with
        | .arr elems => elems.map Json.asDict
        | _ => []
      let report := build_report topic sources
      .ok (match output with
        | some path => ReportEffect.writeFile path report
        | none => ReportEffect.printStdout report)

/-! ## Helper lemmas -/

/-- The accumulator of `String.intercalate.go` distributes over appending. -/
lemma intercalate_go_append (s x y : String) (l : List String) :
    String.intercalate.go (x ++ y) s l = x ++ String.intercalate.go y s l := by
  induction l generalizing y with
  | nil => rfl
  | cons b bs ih =>
    show String.intercalate.go (x ++ y ++ s ++ b) s bs =
      x ++ String.intercalate.go (y ++ s ++ b) s bs
    rw [String.append_assoc x y s, String.append_assoc x (y ++ s) b, ih]

/-- A strip-then-keep-non-blank list comprehension is the same as mapping
`trim` and then filtering out the blank results. -/
lemma filterMap_strip_eq (l : List String) :
    (l.filterMap fun line =>
        let t := pyStrip line
        if t.isEmpty then none else some t) =
      (l.map pyStrip).filter (fun t => !t.isEmpty) := by
  induction l with
  | nil => rfl
  | cons x xs ih =>
    by_cases hx : (pyStrip x).isEmpty <;>
      simp [List.filterMap_cons, List.filter, hx, ih]

/-! ## Theorems for the claims -/

/-- C1: for every title and every non-empty commit list, `format_markdown`
returns the title line, then one empty line, then one "- <commit>" line per
commit in input order, joined by newlines. -/
theorem format_markdown_bullets (title : String) (commits : List String)
    (h : commits ≠ []) :
    format_markdown title commits =
      title ++ "\n\n" ++
        String.intercalate "\n" (commits.map (fun c => "- " ++ c)) := by
  match commits, h with
  | c :: cs, _ =>
    show String.intercalate "\n"
        ([title, ""] ++ ("- " ++ c) :: cs.map (fun x => "- " ++ x)) = _
    show String.intercalate.go (title ++ "\n" ++ "" ++ "\n" ++ ("- " ++ c)) "\n"
        (cs.map (fun x => "- " ++ x)) = _
    rw [intercalate_go_append]
    show _ = title ++ "\n\n" ++
      String.intercalate.go ("- " ++ c) "\n" (cs.map (fun x => "- " ++ x))
    rw [show title ++ "\n" ++ "" ++ "\n" = title ++ "\n\n" from
      String.ext (by simp)]

/-- C1 witness: the theorem applied at a concrete title and commit list. -/
theorem format_markdown_bullets_witness :
    (["a1 fix", "b2 feat"] : List String) ≠ [] ∧
      format_markdown "## Changelog" ["a1 fix", "b2 feat"] =
        "## Changelog" ++ "\n\n" ++
          String.intercalate "\n"
            (["a1 fix", "b2 feat"].map (fun c => "- " ++ c)) :=
  ⟨by simp, format_markdown_bullets "## Changelog" ["a1 fix", "b2 feat"]
    (by simp)⟩

/-- C2: `build_report` emits the fixed template — topic heading, the Summary,
Key facts, Contradictions and Sources sections in order, the rendered sources
under Sources, and a trailing newline. -/
theorem build_report_template (topic : String) (sources : List SourceDict) :
    build_report topic sources =
      "# Research Report: " ++ topic ++
        "\n\n## Summary\n- ...\n- ...\n\n## Key facts (with dates)\n- ...\n\n## Contradictions / uncertainties\n- ...\n\n## Sources\n" ++
        format_sources sources ++ "\n" := by
  apply String.ext
  simp [build_report, String.intercalate, String.intercalate.go]

/-- C3: when the `git log` invocation fails, `main` of the changelog generator
reports the captured stderr (or the fallback message when it is empty), exits
with code 1, and produces no changelog output. -/
theorem changelog_main_git_failure (a : ChangelogArgs)
    (git : List String → GitResult) (s : String)
    (h : git (main_log_args a git) = GitResult.err s) :
    changelog_main a git =
        ChangelogOutcome.failure (if s.isEmpty then fallbackGitLogMsg else s) ∧
      (changelog_main a git).exitCode = 1 ∧
      (changelog_main a git).writesOutput = false := by
  have hrun : run_git git (main_log_args a git) = Except.error s := by
    unfold run_git; rw [h]
  refine ⟨?_, ?_, ?_⟩ <;>
    simp [changelog_main, hrun, ChangelogOutcome.exitCode,
      ChangelogOutcome.writesOutput]

/-- C3 witness: a concrete run whose `git log` fails with stderr "boom". -/
theorem changelog_main_git_failure_witness :
    changelog_main ⟨none, none, none, 50, false, none⟩
        (fun _ => GitResult.err "boom") =
      ChangelogOutcome.failure "boom" := by
  have h := changelog_main_git_failure ⟨none, none, none, 50, false, none⟩
    (fun _ => GitResult.err "boom") "boom" rfl
  rw [h.1]
  rfl

/-- C4: `load_sources` returns the parsed JSON value exactly when it is a
list, and raises `ValueError` with the documented message on every other
parse result. -/
theorem load_sources_spec :
    (∀ elems : List Json,
        load_sources (Json.arr elems) = Except.ok (Json.arr elems)) ∧
    (∀ data : Json, (∀ elems, data ≠ Json.arr elems) →
        load_sources data =
          Except.error "Input JSON must be a list of source objects") := by
  constructor
  · intro elems; rfl
  · intro data hdata
    cases data with
    | arr elems => exact absurd rfl (hdata elems)
    | null => rfl
    | bool b => rfl
    | num n => rfl
    | str s => rfl
    | obj fields => rfl

/-- C4 witness: the theorem applied to a concrete list and a non-list. -/
theorem load_sources_spec_witness :
    load_sources (Json.arr []) = Except.ok (Json.arr []) ∧
      load_sources Json.null =
        Except.error "Input JSON must be a list of source objects" :=
  ⟨load_sources_spec.1 [], load_sources_spec.2 Json.null
    (fun _ h => Json.noConfusion h)⟩

/-- C5: the report scaffolder is a pure pipeline — on a JSON list of source
objects the emitted text is exactly `build_report topic sources`, written
verbatim to the `--output` file or handed verbatim to `print`. -/
theorem report_main_pipeline (topic : String) (dicts : List SourceDict)
    (out : Option String) :
    load_sources (Json.arr (dicts.map Json.obj)) =
        Except.ok (Json.arr (dicts.map Json.obj)) ∧
      report_main topic (Json.arr (dicts.map Json.obj)) out =
        Except.ok (match out with
          | some path => ReportEffect.writeFile path (build_report topic dicts)
          | none => ReportEffect.printStdout (build_report topic dicts)) := by
  refine ⟨rfl, ?_⟩
  have hmap : (dicts.map Json.obj).map Json.asDict = dicts := by
    induction dicts with
    | nil => rfl
    | cons d rest ih => simp [ih, Json.asDict]
  simp [report_main, load_sources, hmap]

/-- C6: the changelog generator's commit list is exactly the non-blank lines
of the `git log` output returned by `run_git`, each stripped, in original
order, and the rendered Markdown bullets that list in that order. -/
theorem changelog_main_commits (a : ChangelogArgs)
    (git : List String → GitResult) (stdout : String)
    (h : git (main_log_args a git) = GitResult.ok stdout) :
    parse_commits (pyStrip stdout) =
        ((pySplitlines (pyStrip stdout)).map pyStrip).filter
          (fun t => !t.isEmpty) ∧
      changelog_main a git = (match a.output with
        | some path => ChangelogOutcome.success (OutTarget.file path
            (format_markdown (main_title a git) (parse_commits (pyStrip stdout))
              ++ "\n"))
        | none => ChangelogOutcome.success (OutTarget.stdout
            (format_markdown (main_title a git)
              (parse_commits (pyStrip stdout))))) := by
  constructor
  · exact filterMap_strip_eq _
  · have hrun : run_git git (main_log_args a git) = Except.ok (pyStrip stdout) := by
      unfold run_git; rw [h]
    simp [changelog_main, hrun]

/-- C6 witness: a concrete run whose `git log` output holds two commits
separated by a blank line. -/
theorem changelog_main_commits_witness :
    changelog_main ⟨none, none, some "2026-01-01", 50, false, none⟩
        (fun _ => GitResult.ok "a1 fix\n\n  b2 feat  \n") =
      ChangelogOutcome.success (OutTarget.stdout
        "## Changelog (since 2026-01-01)\n\n- a1 fix\n- b2 feat") := by
  have h := changelog_main_commits ⟨none, none, some "2026-01-01", 50, false, none⟩
    (fun _ => GitResult.ok "a1 fix\n\n  b2 feat  \n") "a1 fix\n\n  b2 feat  \n" rfl
  rw [h.2]
  decide

/-- C7: the formatting layer is deterministic — each of `format_markdown`,
`build_range`, `build_log_args`, `format_sources` and `build_report` is a
pure function of its arguments: equal arguments give equal results. -/
theorem formatting_deterministic :
    (∀ t₁ t₂ : String, ∀ c₁ c₂ : List String, t₁ = t₂ → c₁ = c₂ →
        format_markdown t₁ c₁ = format_markdown t₂ c₂) ∧
    (∀ s₁ s₂ u₁ u₂ : Option String, s₁ = s₂ → u₁ = u₂ →
        build_range s₁ u₁ = build_range s₂ u₂) ∧
    (∀ r₁ r₂ d₁ d₂ : Option String, ∀ m₁ m₂ : Int, ∀ i₁ i₂ : Bool,
        r₁ = r₂ → d₁ = d₂ → m₁ = m₂ → i₁ = i₂ →
        build_log_args r₁ d₁ m₁ i₁ = build_log_args r₂ d₂ m₂ i₂) ∧
    (∀ x₁ x₂ : List SourceDict, x₁ = x₂ →
        format_sources x₁ = format_sources x₂) ∧
    (∀ p₁ p₂ : String, ∀ x₁ x₂ : List SourceDict, p₁ = p₂ → x₁ = x₂ →
        build_report p₁ x₁ = build_report p₂ x₂) := by
  refine ⟨?_, ?_, ?_, ?_, ?_⟩ <;> intros <;> subst_vars <;> rfl

/-- C7 witness: every part of the determinism theorem applied at concrete
arguments. -/
theorem formatting_deterministic_witness :
    format_markdown "T" ["c"] = format_markdown "T" ["c"] ∧
      build_range (some "a") none = build_range (some "a") none ∧
      build_log_args none none 50 false = build_log_args none none 50 false ∧
      format_sources [] = format_sources [] ∧
      build_report "X" [] = build_report "X" [] :=
  ⟨formatting_deterministic.1 "T" "T" ["c"] ["c"] rfl rfl,
   formatting_deterministic.2.1 (some "a") (some "a") none none rfl rfl,
   formatting_deterministic.2.2.1 none none none none 50 50 false false
     rfl rfl rfl rfl,
   formatting_deterministic.2.2.2.1 [] [] rfl,
   formatting_deterministic.2.2.2.2 "X" "X" [] [] rfl rfl⟩

/-- C8: in `format_sources` a missing "title" key renders as "(untitled)",
and the date bracket, type parenthesis, URL sub-bullet and Notes sub-bullet
each appear exactly when the corresponding field is present and non-empty. -/
theorem format_sources_fields (item : SourceDict) :
    format_sources [item] =
      "- " ++ String.intercalate " "
          ([(item.lookup "title").getD "(untitled)"] ++
            (if ((item.lookup "date").getD "").isEmpty then []
             else ["[" ++ (item.lookup "date").getD "" ++ "]"]) ++
            (if ((item.lookup "type").getD "").isEmpty then []
             else ["(" ++ (item.lookup "type").getD "" ++ ")"])) ++
        (if ((item.lookup "url").getD "").isEmpty then ""
         else "\n  - URL: " ++ (item.lookup "url").getD "") ++
        (if ((item.lookup "notes").getD "").isEmpty then ""
         else "\n  - Notes: " ++ (item.lookup "notes").getD "") := by
  rw [show format_sources [item] = format_source_entry item from by
    simp [format_sources, String.intercalate, String.intercalate.go]]
  apply String.ext
  simp only [format_source_entry, dictGet]
  split_ifs <;> simp [String.intercalate, String.intercalate.go]

/-- C9: on an empty input list each formatter emits its placeholder bullet:
the changelog body becomes "- (No commits found)" under the title and blank
line, and the sources section becomes "- (No sources provided)". -/
theorem empty_list_placeholders (title : String) :
    format_markdown title [] = title ++ "\n\n- (No commits found)" ∧
      format_sources [] = "- (No sources provided)" := by
  constructor
  · apply String.ext
    simp [format_markdown, String.intercalate, String.intercalate.go]
  · rfl

/-- C10: the four cases of `build_range` — both refs truthy gives
"since..until", only since gives "since..HEAD", only until gives the bare
until string, neither gives `none` — indexed by the exhaustive and mutually
exclusive truth table of the two truthiness tests. -/
theorem build_range_cases (s u : Option String) :
    (pyTruthy s = true → pyTruthy u = true →
        build_range s u = some (s.getD "" ++ ".." ++ u.getD "")) ∧
    (pyTruthy s = true → pyTruthy u = false →
        build_range s u = some (s.getD "" ++ "..HEAD")) ∧
    (pyTruthy s = false → pyTruthy u = true → build_range s u = u) ∧
    (pyTruthy s = false → pyTruthy u = false → build_range s u = none) := by
  refine ⟨?_, ?_, ?_, ?_⟩ <;> intro hs hu <;>
    simp only [build_range, hs, hu, Bool.and_self, Bool.and_false,
      Bool.false_and, Bool.true_and, if_true, if_false, Bool.false_eq_true,
      ite_false, ite_true]
  cases u with
  | none => simp [pyTruthy] at hu
  | some v => rfl

/-- C10 witness: the four cases of the theorem at concrete refs. -/
theorem build_range_cases_witness :
    build_range (some "v1") (some "v2") = some ("v1" ++ ".." ++ "v2") ∧
      build_range (some "v1") none = some ("v1" ++ "..HEAD") ∧
      build_range none (some "v2") = some "v2" ∧
      build_range none none = none :=
  ⟨(build_range_cases (some "v1") (some "v2")).1 rfl rfl,
   (build_range_cases (some "v1") none).2.1 rfl rfl,
   (build_range_cases none (some "v2")).2.2.1 rfl rfl,
   (build_range_cases none none).2.2.2 rfl rfl⟩
